import Mathlib

/-!
Verification of the spares-ageing classification engine (`src/app.py`).

The Python code is shallowly embedded as executable Lean definitions:

* Python `datetime.date` values become the `Date` structure (year/month/day as
  naturals); date subtraction (`(a - b).days`) is the difference of proleptic
  Gregorian ordinals (`toRataDie`), and date comparison is the lexicographic
  comparison Python uses on `(year, month, day)` triples.
* A dataframe cell that may be NaN/None is `Option String`; a numeric cell
  after `float(...)` / `pd.to_numeric(..., errors='coerce')` is `Option ℚ`
  (finite floats are rationals; `none` models NaN / failed coercion).
* Python string slicing/stripping/strptime are modelled character-wise over
  `List Char` (`charTake`, `stripChars`, `splitOnChar`), following CPython's
  `_strptime` field patterns for `%d`, `%m`, `%Y`.
* `date.replace(year=year-1)`, which raises `ValueError` for Feb-29 onto a
  non-leap year, becomes the `Option`-valued `replaceYearSub1`; the `except`
  branches of the Python code become the corresponding `none`-handling arms.
-/

namespace SpareAgeing

/-- A calendar date, as Python's `datetime.date` (valid dates have
`1 ≤ year ≤ 9999`, `1 ≤ month ≤ 12`, `1 ≤ day ≤ daysInMonth year month`). -/
structure Date where
  year : Nat
  month : Nat
  day : Nat
deriving DecidableEq, Repr

/-- Gregorian leap-year rule (Python `calendar.isleap`). -/
def isLeap (y : Nat) : Bool :=
  y % 4 = 0 && (y % 100 != 0 || y % 400 = 0)

/-- Number of days in a month (months outside 1..12 never arise on valid
dates; they default to 31 so that day-1 dates are always in range). -/
def daysInMonth (y m : Nat) : Nat :=
  if m = 2 then (if isLeap y then 29 else 28)
  else if m = 4 ∨ m = 6 ∨ m = 9 ∨ m = 11 then 30
  else 31

/-- Days in the months of year `y` strictly before month `m`. -/
def daysBeforeMonth (y m : Nat) : Nat :=
  (List.range (m - 1)).foldl (fun acc i => acc + daysInMonth y (i + 1)) 0

/-- Proleptic Gregorian ordinal of a date (Python `date.toordinal`):
day 1 is 0001-01-01. -/
def toRataDie (d : Date) : Int :=
  let y : Int := d.year
  365 * (y - 1) + (y - 1) / 4 - (y - 1) / 100 + (y - 1) / 400
    + daysBeforeMonth d.year d.month + d.day

/-- `(a - b).days` for Python dates. -/
def dateDiff (a b : Date) : Int :=
  toRataDie a - toRataDie b

/-- Python's `date` comparison: lexicographic on `(year, month, day)`. -/
def Date.ble (a b : Date) : Bool :=
  decide (a.year < b.year) ||
    (decide (a.year = b.year) &&
      (decide (a.month < b.month) ||
        (decide (a.month = b.month) && decide (a.day ≤ b.day))))

/-- Python's strict `date` comparison. -/
def Date.blt (a b : Date) : Bool :=
  decide (a.year < b.year) ||
    (decide (a.year = b.year) &&
      (decide (a.month < b.month) ||
        (decide (a.month = b.month) && decide (a.day < b.day))))

/-- `d - timedelta(days=1)` for a valid date. -/
def subOneDay (d : Date) : Date :=
  if 1 < d.day then ⟨d.year, d.month, d.day - 1⟩
  else if 1 < d.month then ⟨d.year, d.month - 1, daysInMonth d.year (d.month - 1)⟩
  else ⟨d.year - 1, 12, 31⟩

/-- `d.replace(day=1)` — always valid. -/
def replaceDay1 (d : Date) : Date :=
  ⟨d.year, d.month, 1⟩

/-- `d.replace(year=d.year - 1)`: Python raises `ValueError` when the result
is not a valid date (Feb 29 onto a non-leap year, or year 0); the raise is
modelled by `none`. -/
def replaceYearSub1 (d : Date) : Option Date :=
  if 1 ≤ d.year - 1 ∧ d.day ≤ daysInMonth (d.year - 1) d.month then
    some ⟨d.year - 1, d.month, d.day⟩
  else none

/-! ## Period Calculator (closure variables of `process_excel_to_csv`) -/

/-- `current_month_start = today.replace(day=1)`. -/
def currentMonthStart (today : Date) : Date :=
  replaceDay1 today

/-- `last_month_end = current_month_start - timedelta(days=1)`. -/
def lastMonthEnd (today : Date) : Date :=
  subOneDay (currentMonthStart today)

/-- `last_month_start = last_month_end.replace(day=1)`. -/
def lastMonthStart (today : Date) : Date :=
  replaceDay1 (lastMonthEnd today)

/-- `last_to_last_month_end = last_month_start - timedelta(days=1)`. -/
def lastToLastMonthEnd (today : Date) : Date :=
  subOneDay (lastMonthStart today)

/-- `last_to_last_month_start = last_to_last_month_end.replace(day=1)`. -/
def lastToLastMonthStart (today : Date) : Date :=
  replaceDay1 (lastToLastMonthEnd today)

/-! ## Date Normalizer (`parse_date`) -/

/-- Python `s[:n]` on the character level. -/
def charTake : Nat → List Char → List Char
  | 0, _ => []
  | _, [] => []
  | n + 1, c :: cs => c :: charTake n cs

/-- Python `str.strip()`: drop leading and trailing whitespace. -/
def stripChars (cs : List Char) : List Char :=
  ((cs.dropWhile Char.isWhitespace).reverse.dropWhile Char.isWhitespace).reverse

/-- Split a character list at every occurrence of `sep` (the pieces between
separators, as Python `re` positional matching of `N sep N sep N` induces). -/
def splitOnChar (sep : Char) (cs : List Char) : List (List Char) :=
  match cs with
  | [] => [[]]
  | c :: rest =>
    let r := splitOnChar sep rest
    if c = sep then [] :: r
    else
      match r with
      | [] => [[c]]
      | g :: gs => (c :: g) :: gs

/-- Numeric value of a decimal digit character. -/
def digitVal (c : Char) : Nat :=
  c.toNat - 48

/-- CPython `_strptime` pattern for `%d`:
`3[01] | [12]\d | 0[1-9] | [1-9] | space[1-9]`, matched against a whole
separator-free field. -/
def matchDayField : List Char → Option Nat
  | ['3', c] => if c = '0' ∨ c = '1' then some (30 + digitVal c) else none
  | ['0', c] => if '1' ≤ c ∧ c ≤ '9' then some (digitVal c) else none
  | [' ', c] => if '1' ≤ c ∧ c ≤ '9' then some (digitVal c) else none
  | [c, d] =>
    if (c = '1' ∨ c = '2') ∧ d.isDigit then some (10 * digitVal c + digitVal d)
    else none
  | [c] => if '1' ≤ c ∧ c ≤ '9' then some (digitVal c) else none
  | _ => none

/-- CPython `_strptime` pattern for `%m`: `1[0-2] | 0[1-9] | [1-9]`. -/
def matchMonthField : List Char → Option Nat
  | ['1', c] => if '0' ≤ c ∧ c ≤ '2' then some (10 + digitVal c) else none
  | ['0', c] => if '1' ≤ c ∧ c ≤ '9' then some (digitVal c) else none
  | [c] => if '1' ≤ c ∧ c ≤ '9' then some (digitVal c) else none
  | _ => none

/-- CPython `_strptime` pattern for `%Y`: exactly four digits. -/
def matchYearField : List Char → Option Nat
  | [a, b, c, d] =>
    if a.isDigit ∧ b.isDigit ∧ c.isDigit ∧ d.isDigit then
      some (1000 * digitVal a + 100 * digitVal b + 10 * digitVal c + digitVal d)
    else none
  | _ => none

/-- `datetime.date(y, m, d)` construction: `ValueError` (modelled as `none`)
unless the triple is a valid date with `1 ≤ y ≤ 9999`. -/
def mkValidDate (y m d : Nat) : Option Date :=
  if 1 ≤ y ∧ y ≤ 9999 ∧ 1 ≤ m ∧ m ≤ 12 ∧ 1 ≤ d ∧ d ≤ daysInMonth y m then
    some ⟨y, m, d⟩
  else none

/-- `datetime.strptime(s, "%d<sep>%m<sep>%Y").date()`. -/
def strptimeDMY (sep : Char) (cs : List Char) : Option Date :=
  match splitOnChar sep cs with
  | [a, b, c] =>
    match matchDayField a, matchMonthField b, matchYearField c with
    | some d, some m, some y => mkValidDate y m d
    | _, _, _ => none
  | _ => none

/-- `datetime.strptime(s, "%Y-%m-%d").date()`. -/
def strptimeYMD (sep : Char) (cs : List Char) : Option Date :=
  match splitOnChar sep cs with
  | [a, b, c] =>
    match matchYearField a, matchMonthField b, matchDayField c with
    | some y, some m, some d => mkValidDate y m d
    | _, _, _ => none
  | _ => none

/-- `datetime.strptime(s, "%m/%d/%Y").date()`. -/
def strptimeMDY (sep : Char) (cs : List Char) : Option Date :=
  match splitOnChar sep cs with
  | [a, b, c] =>
    match matchMonthField a, matchDayField b, matchYearField c with
    | some m, some d, some y => mkValidDate y m d
    | _, _, _ => none
  | _ => none

/-- The loop over `date_formats = ['%d/%m/%Y', '%d-%m-%Y', '%Y-%m-%d',
'%m/%d/%Y', '%d.%m.%Y']`: first successful format wins. -/
def tryFormats (cs : List Char) : Option Date :=
  match strptimeDMY '/' cs with
  | some d => some d
  | none =>
    match strptimeDMY '-' cs with
    | some d => some d
    | none =>
      match strptimeYMD '-' cs with
      | some d => some d
      | none =>
        match strptimeMDY '/' cs with
        | some d => some d
        | none => strptimeDMY '.' cs

/-- `parse_date` (src/app.py lines 39-52): `None`, `"-"` or blank input give
`None`; otherwise parse `str(s)[:10].strip()` with the format loop. -/
def parse_date (date_str : Option String) : Option Date :=
  match date_str with
  | none => none
  | some s =>
    if s = "-" ∨ stripChars s.data = [] then none
    else tryFormats (stripChars (charTake 10 s.data))

/-! ## Aging Classifier (`categorize_aging`, `categorize_by_month`) -/

/-- The day-difference if-chain inside `categorize_aging`
(src/app.py lines 97-110). -/
def agingBucketOfDays (days_diff : Int) : String :=
  if days_diff < 0 then "0 to 90 days"
  else if days_diff ≤ 90 then "0 to 90 days"
  else if days_diff ≤ 180 then "91 to 180 days"
  else if days_diff ≤ 365 then "181 to 365 days"
  else if days_diff ≤ 730 then "366 to 730 days"
  else "730 and above"

/-- `categorize_aging` (src/app.py lines 88-112). -/
def categorize_aging (today : Date) (date_str : Option String) : String :=
  match date_str with
  | none => "730 and above"
  | some s =>
    if s = "-" ∨ stripChars s.data = [] then "730 and above"
    else
      match parse_date (some s) with
      | none => "730 and above"
      | some date_obj => agingBucketOfDays (dateDiff today date_obj)

/-- The fallback day-difference if-chain inside `categorize_by_month`
(src/app.py lines 131-143); note `days_diff < 0` gives `"Current Month"`
here, unlike `categorize_aging`. -/
def monthFallbackOfDays (days_diff : Int) : String :=
  if days_diff < 0 then "Current Month"
  else if days_diff ≤ 90 then "0 to 90 days"
  else if days_diff ≤ 180 then "91 to 180 days"
  else if days_diff ≤ 365 then "181 to 365 days"
  else if days_diff ≤ 730 then "366 to 730 days"
  else "730 and above"

/-- `categorize_by_month` (src/app.py lines 114-144). -/
def categorize_by_month (today : Date) (date_str : Option String) : String :=
  match date_str with
  | none => "730 and above"
  | some s =>
    if s = "-" ∨ stripChars s.data = [] then "730 and above"
    else
      match parse_date (some s) with
      | none => "730 and above"
      | some date_obj =>
        if (currentMonthStart today).ble date_obj then "Current Month"
        else if (lastMonthStart today).ble date_obj &&
            date_obj.ble (lastMonthEnd today) then "Last Month"
        else if (lastToLastMonthStart today).ble date_obj &&
            date_obj.ble (lastToLastMonthEnd today) then "Last to Last Month"
        else monthFallbackOfDays (dateDiff today date_obj)

/-! ## Dead-Stock Evaluator (`identify_dead_stock`) -/

/-- The `issue_days_diff` computation of `identify_dead_stock`
(src/app.py lines 160-171): missing/unparseable issue date gives the
sentinel `999999`. -/
def issue_days (today : Date) (last_issue_str : Option String) : Int :=
  match last_issue_str with
  | none => 999999
  | some s =>
    if s = "-" ∨ stripChars s.data = [] then 999999
    else
      match parse_date (some s) with
      | none => 999999
      | some issue_date_obj => dateDiff today issue_date_obj

/-- `identify_dead_stock` (src/app.py lines 146-205). `last_issue_qty` is a
parameter of the Python function but unused by its body; `stock_qty` is the
cell after the `float(...)`-coercion attempt (`none` = NaN or failure,
treated as 0). The six `replace(year=...-1)` calls happen before the window
if-chain, so any `ValueError` among them lands in the bare `except` that
returns `(True, "Earlier")`. -/
def identify_dead_stock (today : Date) (last_purchase_str last_issue_str : Option String)
    (last_issue_qty stock_qty : Option ℚ) : Bool × String :=
  let stock : ℚ := stock_qty.getD 0
  if stock ≤ 0 then (false, "Not Dead Stock (No Stock)")
  else if issue_days today last_issue_str ≤ 365 then
    (false, "Not Dead Stock (Recent Issue)")
  else
    match last_purchase_str with
    | none => (true, "Earlier")
    | some s =>
      if s = "-" ∨ stripChars s.data = [] then (true, "Earlier")
      else
        match parse_date (some s) with
        | none => (true, "Earlier")
        | some purchase_date_obj =>
          match replaceYearSub1 (currentMonthStart today), replaceYearSub1 today,
              replaceYearSub1 (lastMonthStart today), replaceYearSub1 (lastMonthEnd today),
              replaceYearSub1 (lastToLastMonthStart today),
              replaceYearSub1 (lastToLastMonthEnd today) with
          | some cmLyStart, some cmLyEnd, some lmLyStart, some lmLyEnd,
              some ltlmLyStart, some ltlmLyEnd =>
            if cmLyStart.ble purchase_date_obj && purchase_date_obj.ble cmLyEnd then
              (true, "Current Month")
            else if lmLyStart.ble purchase_date_obj && purchase_date_obj.ble lmLyEnd then
              (true, "Last Month")
            else if ltlmLyStart.ble purchase_date_obj && purchase_date_obj.ble ltlmLyEnd then
              (true, "Last to Last Month")
            else if purchase_date_obj.blt cmLyStart then (true, "Earlier")
            else (true, "Earlier")
          | _, _, _, _, _, _ => (true, "Earlier")

/-! ## Filter & Range-Query Engine (vectorized masks) -/

/-- One dataframe row as seen by the vectorized masks: each field is the
already-coerced column value (`pd.to_numeric(..., errors='coerce')` for the
stock quantity, `pd.to_datetime(str[:10], errors='coerce')` for the dates;
`none` = NaN/NaT). -/
structure MaskRow where
  stock_qty : Option ℚ
  purchase : Option Date
  issue : Option Date
deriving DecidableEq, Repr

/-- `get_dead_stock_mask` (src/app.py lines 1446-1459 and 1717-1726, both
bodies identical): `stock > 0` AND purchase in `[date_range_start,
date_range_end]` AND (`issue` NaT OR `issue < purchase`); pandas comparisons
against NaT are false. -/
def get_dead_stock_mask (r : MaskRow) (date_range_start date_range_end : Date) : Bool :=
  let stock_mask := decide (0 < r.stock_qty.getD 0)
  let date_range_mask :=
    match r.purchase with
    | some p => date_range_start.ble p && p.ble date_range_end
    | none => false
  let no_issue_mask :=
    match r.issue, r.purchase with
    | none, _ => true
    | some i, some p => i.blt p
    | some _, none => false
  stock_mask && date_range_mask && no_issue_mask

/-- Following the spec's words for §4.6 `dead_stock_in_range` (to be compared
with `get_dead_stock_mask`): records whose purchase date falls in
`[window_start, window_end]` AND (issue date missing, OR issue date precedes
the purchase date, OR issue date after `not_sold_cutoff`). -/
def spec_dead_stock_in_range (r : MaskRow)
    (window_start window_end not_sold_cutoff : Date) : Bool :=
  (match r.purchase with
    | some p => window_start.ble p && p.ble window_end
    | none => false) &&
  (match r.issue with
    | none => true
    | some i =>
      (match r.purchase with
        | some p => i.blt p
        | none => false) || not_sold_cutoff.blt i)

/-- The `lml_mask` of the last-month-liquidation computation (src/app.py
lines 1787-1795, and identically lines 1490-1497): `stock > 0` AND
`purchase < last_month_last_year_start` AND issue within
`[last_month_start, last_month_end]`. The surrounding `try` lands in an
`except` that yields the empty selection, modelled by the `none` arm. -/
def lml_mask (today : Date) (r : MaskRow) : Bool :=
  match replaceYearSub1 (lastMonthStart today) with
  | none => false
  | some last_month_last_year_start =>
    let stock_mask := decide (0 < r.stock_qty.getD 0)
    let old_purchase_mask :=
      match r.purchase with
      | some p => p.blt last_month_last_year_start
      | none => false
    let last_month_issue_mask :=
      match r.issue with
      | some i => (lastMonthStart today).ble i && i.ble (lastMonthEnd today)
      | none => false
    stock_mask && old_purchase_mask && last_month_issue_mask

/-! ## Helper lemmas -/

lemma parse_date_guard {s : String} {d : Date} (h : parse_date (some s) = some d) :
    ¬(s = "-" ∨ stripChars s.data = []) := by
  intro hg
  simp [parse_date, hg] at h

lemma issue_days_of_parse {iss : Option String} {i : Date} (today : Date)
    (h : parse_date iss = some i) : issue_days today iss = dateDiff today i := by
  cases iss with
  | none => simp [parse_date] at h
  | some s =>
    have hg := parse_date_guard h
    simp [issue_days, hg, h]

lemma issue_days_of_no_parse {iss : Option String} (today : Date)
    (h : parse_date iss = none) : issue_days today iss = 999999 := by
  cases iss with
  | none => rfl
  | some s =>
    by_cases hg : s = "-" ∨ stripChars s.data = []
    · simp [issue_days, hg]
    · simp [issue_days, hg, h]

/-! ## Claim theorems -/

/-- C2: the dead-stock evaluator applies its early-exit rules in order:
coerced stock quantity ≤ 0 (missing/non-numeric → 0) gives
`(false, "Not Dead Stock (No Stock)")` regardless of the dates; otherwise a
parsed issue date with `today - issue ≤ 365` gives
`(false, "Not Dead Stock (Recent Issue)")`, while a missing or unparseable
issue date gets the sentinel day count 999999 and never triggers the
recent-issue exit. -/
theorem identify_dead_stock_early_exits
    (today : Date) (pur iss : Option String) (q qty : Option ℚ) :
    (qty.getD 0 ≤ 0 →
      identify_dead_stock today pur iss q qty = (false, "Not Dead Stock (No Stock)")) ∧
    (0 < qty.getD 0 → ∀ i : Date, parse_date iss = some i → dateDiff today i ≤ 365 →
      identify_dead_stock today pur iss q qty = (false, "Not Dead Stock (Recent Issue)")) ∧
    issue_days today none = 999999 ∧
    (parse_date iss = none → issue_days today iss = 999999) ∧
    (parse_date iss = none →
      (identify_dead_stock today pur iss q qty).2 ≠ "Not Dead Stock (Recent Issue)") := by
  refine ⟨?_, ?_, rfl, issue_days_of_no_parse today, ?_⟩
  · intro h
    simp [identify_dead_stock, h]
  · intro h i hi hle
    have h1 : ¬ qty.getD 0 ≤ 0 := not_le.mpr h
    have h2 := issue_days_of_parse today hi
    simp [identify_dead_stock, h1, h2, hle]
  · intro h
    have h2 := issue_days_of_no_parse today h
    simp only [identify_dead_stock, h2]
    rw [if_neg (show ¬((999999 : Int) ≤ 365) by decide)]
    repeat' split <;> try (first | decide | simp)

/-- C2 witness: scenario B (`stock_qty = 0`) hits the no-stock early exit. -/
theorem identify_dead_stock_early_exits_witness :
    ((some (0 : ℚ)).getD 0 ≤ 0) ∧
    identify_dead_stock ⟨2024, 5, 15⟩ (some "01/01/2020") (some "01/01/2020") none (some 0) =
      (false, "Not Dead Stock (No Stock)") :=
  ⟨by decide,
    (identify_dead_stock_early_exits ⟨2024, 5, 15⟩ (some "01/01/2020")
      (some "01/01/2020") none (some 0)).1 (by decide)⟩

/-- C9: the evaluator always returns a label: when `is_dead_stock` is false
it is one of the two not-dead labels, and when true it is one of
`"Earlier"`, `"Current Month"`, `"Last Month"`, `"Last to Last Month"`. -/
lemma identify_dead_stock_cases
    (today : Date) (pur iss : Option String) (q qty : Option ℚ) :
    identify_dead_stock today pur iss q qty = (false, "Not Dead Stock (No Stock)") ∨
    identify_dead_stock today pur iss q qty = (false, "Not Dead Stock (Recent Issue)") ∨
    identify_dead_stock today pur iss q qty = (true, "Earlier") ∨
    identify_dead_stock today pur iss q qty = (true, "Current Month") ∨
    identify_dead_stock today pur iss q qty = (true, "Last Month") ∨
    identify_dead_stock today pur iss q qty = (true, "Last to Last Month") := by
  unfold identify_dead_stock
  repeat' split <;> try simp [le_or_lt]

theorem identify_dead_stock_label_total
    (today : Date) (pur iss : Option String) (q qty : Option ℚ) :
    ((identify_dead_stock today pur iss q qty).1 = false →
      (identify_dead_stock today pur iss q qty).2 = "Not Dead Stock (No Stock)" ∨
      (identify_dead_stock today pur iss q qty).2 = "Not Dead Stock (Recent Issue)") ∧
    ((identify_dead_stock today pur iss q qty).1 = true →
      (identify_dead_stock today pur iss q qty).2 = "Earlier" ∨
      (identify_dead_stock today pur iss q qty).2 = "Current Month" ∨
      (identify_dead_stock today pur iss q qty).2 = "Last Month" ∨
      (identify_dead_stock today pur iss q qty).2 = "Last to Last Month") := by
  rcases identify_dead_stock_cases today pur iss q qty with h | h | h | h | h | h <;>
    rw [h] <;> exact ⟨by intro hb; simp_all, by intro hb; simp_all⟩

/-- C9 witness: scenario D is dead with label `"Earlier"`, a member of the
dead-label enumeration. -/
theorem identify_dead_stock_label_total_witness :
    (identify_dead_stock ⟨2024, 5, 15⟩ none none none (some 3)).1 = true ∧
    ((identify_dead_stock ⟨2024, 5, 15⟩ none none none (some 3)).2 = "Earlier" ∨
      (identify_dead_stock ⟨2024, 5, 15⟩ none none none (some 3)).2 = "Current Month" ∨
      (identify_dead_stock ⟨2024, 5, 15⟩ none none none (some 3)).2 = "Last Month" ∨
      (identify_dead_stock ⟨2024, 5, 15⟩ none none none (some 3)).2 = "Last to Last Month") :=
  ⟨by decide,
    (identify_dead_stock_label_total ⟨2024, 5, 15⟩ none none none (some 3)).2 (by decide)⟩

/-- C1 (amended): when stock is positive, the issue is not recent, the
purchase date parses, and all six year-ago boundary replacements are valid
calendar dates, the evaluator returns `true` with the label of the first
year-ago window containing the purchase date, `"Earlier"` otherwise. -/
theorem identify_dead_stock_year_ago_windows
    (today : Date) (pur iss : Option String) (q qty : Option ℚ)
    (hq : 0 < qty.getD 0)
    (hiss : 365 < issue_days today iss) :
    (parse_date pur = none →
      identify_dead_stock today pur iss q qty = (true, "Earlier")) ∧
    (∀ p cmLyS cmLyE lmLyS lmLyE ltlmLyS ltlmLyE : Date,
      parse_date pur = some p →
      replaceYearSub1 (currentMonthStart today) = some cmLyS →
      replaceYearSub1 today = some cmLyE →
      replaceYearSub1 (lastMonthStart today) = some lmLyS →
      replaceYearSub1 (lastMonthEnd today) = some lmLyE →
      replaceYearSub1 (lastToLastMonthStart today) = some ltlmLyS →
      replaceYearSub1 (lastToLastMonthEnd today) = some ltlmLyE →
      identify_dead_stock today pur iss q qty =
        (true,
          if cmLyS.ble p && p.ble cmLyE then "Current Month"
          else if lmLyS.ble p && p.ble lmLyE then "Last Month"
          else if ltlmLyS.ble p && p.ble ltlmLyE then "Last to Last Month"
          else "Earlier")) := by
  have hq' : ¬ qty.getD 0 ≤ 0 := not_le.mpr hq
  have hiss' : ¬ issue_days today iss ≤ 365 := not_le.mpr hiss
  constructor
  · intro hp
    cases pur with
    | none => simp [identify_dead_stock, hq', hiss']
    | some s =>
      by_cases hg : s = "-" ∨ stripChars s.data = []
      · simp [identify_dead_stock, hq', hiss', hg]
      · simp [identify_dead_stock, hq', hiss', hg, hp]
  · intro p cmLyS cmLyE lmLyS lmLyE ltlmLyS ltlmLyE hp h1 h2 h3 h4 h5 h6
    cases pur with
    | none => simp [parse_date] at hp
    | some s =>
      have hg := parse_date_guard hp
      simp only [identify_dead_stock, hq', hiss', hg, hp, h1, h2, h3, h4, h5, h6,
        if_false, ite_false]
      split_ifs <;> rfl

/-- C1 witness: for today = 2023-03-15 (no leap-day boundary) a purchase on
2022-03-01 lands in the current-month-last-year as-on-date window. -/
theorem identify_dead_stock_year_ago_windows_witness :
    (0 : ℚ) < ((some (5 : ℚ)).getD 0) ∧
    identify_dead_stock ⟨2023, 3, 15⟩ (some "01/03/2022") none none (some 5) =
      (true, "Current Month") :=
  ⟨by decide,
    ((identify_dead_stock_year_ago_windows ⟨2023, 3, 15⟩ (some "01/03/2022") none none
        (some 5) (by decide) (by decide)).2 ⟨2022, 3, 1⟩ ⟨2022, 3, 1⟩ ⟨2022, 3, 15⟩
      ⟨2022, 2, 1⟩ ⟨2022, 2, 28⟩ ⟨2022, 1, 1⟩ ⟨2022, 1, 31⟩ (by decide) (by decide)
      (by decide) (by decide) (by decide) (by decide) (by decide)).trans (by decide)⟩

/-- C1 counterexample: scenario A of the spec (today = 2024-03-15,
purchase "01/03/2023", no issue, stock 5) returns `(true, "Earlier")`, not
`(true, "Current Month")`: `last_month_end` is 2024-02-29 and its
`replace(year=2023)` raises `ValueError`, landing in the `except` branch. -/
theorem scenario_a_leap_boundary :
    identify_dead_stock ⟨2024, 3, 15⟩ (some "01/03/2023") none none (some 5) =
      (true, "Earlier") ∧
    ("Earlier" : String) ≠ "Current Month" := by
  constructor
  · decide
  · decide

/-- C4: `categorize_aging` is total over the 5-bucket enumeration: missing
or unparseable dates give `"730 and above"`, parsed dates go through the
day-difference chain, whose thresholds are inclusive upper bounds with
negative differences in the youngest bucket. -/
theorem categorize_aging_spec (today : Date) :
    categorize_aging today none = "730 and above" ∧
    (∀ s : String, parse_date (some s) = none →
      categorize_aging today (some s) = "730 and above") ∧
    (∀ (s : String) (d : Date), parse_date (some s) = some d →
      categorize_aging today (some s) = agingBucketOfDays (dateDiff today d)) ∧
    (∀ n : Int,
      (n < 0 → agingBucketOfDays n = "0 to 90 days") ∧
      (0 ≤ n → n ≤ 90 → agingBucketOfDays n = "0 to 90 days") ∧
      (90 < n → n ≤ 180 → agingBucketOfDays n = "91 to 180 days") ∧
      (180 < n → n ≤ 365 → agingBucketOfDays n = "181 to 365 days") ∧
      (365 < n → n ≤ 730 → agingBucketOfDays n = "366 to 730 days") ∧
      (730 < n → agingBucketOfDays n = "730 and above")) ∧
    (∀ ds : Option String,
      categorize_aging today ds ∈
        ["0 to 90 days", "91 to 180 days", "181 to 365 days", "366 to 730 days",
          "730 and above"]) := by
  refine ⟨rfl, ?_, ?_, ?_, ?_⟩
  · intro s h
    by_cases hg : s = "-" ∨ stripChars s.data = []
    · simp [categorize_aging, hg]
    · simp [categorize_aging, hg, h]
  · intro s d h
    have hg := parse_date_guard h
    simp [categorize_aging, hg, h]
  · intro n
    refine ⟨?_, ?_, ?_, ?_, ?_, ?_⟩ <;>
      (intros; unfold agingBucketOfDays; split_ifs <;> first | rfl | omega)
  · intro ds
    cases ds with
    | none => simp [categorize_aging]
    | some s =>
      by_cases hg : s = "-" ∨ stripChars s.data = []
      · simp [categorize_aging, hg]
      · cases hp : parse_date (some s) with
        | none => simp [categorize_aging, hg, hp]
        | some d =>
          have : categorize_aging today (some s) =
              agingBucketOfDays (dateDiff today d) := by
            simp [categorize_aging, hg, hp]
          rw [this]
          unfold agingBucketOfDays
          split_ifs <;> simp

/-- C4 witness: a date parsed 121 days in the past is classified through the
day-difference chain. -/
theorem categorize_aging_spec_witness :
    parse_date (some "15/01/2024") = some ⟨2024, 1, 15⟩ ∧
    categorize_aging ⟨2024, 5, 15⟩ (some "15/01/2024") =
      agingBucketOfDays (dateDiff ⟨2024, 5, 15⟩ ⟨2024, 1, 15⟩) :=
  ⟨by decide,
    (categorize_aging_spec ⟨2024, 5, 15⟩).2.2.1 "15/01/2024" ⟨2024, 1, 15⟩ (by decide)⟩

/-- Rank of an aging label in the bucket order 0-90 < 91-180 < 181-365 <
366-730 < 730+. -/
def bucketRank (label : String) : Nat :=
  if label = "0 to 90 days" then 0
  else if label = "91 to 180 days" then 1
  else if label = "181 to 365 days" then 2
  else if label = "366 to 730 days" then 3
  else 4

/-- C8: the aging classifier is monotone in elapsed days: a smaller
non-negative day count never lands in a later bucket. -/
theorem aging_bucket_monotone (days1 days2 : Int) (h0 : 0 ≤ days1) (h : days1 < days2) :
    bucketRank (agingBucketOfDays days1) ≤ bucketRank (agingBucketOfDays days2) := by
  unfold agingBucketOfDays
  split_ifs <;> first | decide | (exfalso; omega)

/-- C8 witness: 10 days (bucket 0-90) ranks no later than 400 days
(bucket 366-730). -/
theorem aging_bucket_monotone_witness :
    (0 : Int) ≤ 10 ∧ (10 : Int) < 400 ∧
    bucketRank (agingBucketOfDays 10) ≤ bucketRank (agingBucketOfDays 400) :=
  ⟨by decide, by decide, aging_bucket_monotone 10 400 (by decide) (by decide)⟩

/-- C5: `categorize_by_month` returns `"730 and above"` for missing or
unparseable dates, `"Current Month"` for dates at or after the current month
start, the last-month and last-to-last-month labels for dates in those
windows, and otherwise falls back to the aging chain whose negative-days
case gives `"Current Month"`. -/
theorem categorize_by_month_spec (today : Date) :
    categorize_by_month today none = "730 and above" ∧
    (∀ s : String, parse_date (some s) = none →
      categorize_by_month today (some s) = "730 and above") ∧
    (∀ (s : String) (d : Date), parse_date (some s) = some d →
      ((currentMonthStart today).ble d = true →
        categorize_by_month today (some s) = "Current Month") ∧
      ((currentMonthStart today).ble d = false →
        ((lastMonthStart today).ble d && d.ble (lastMonthEnd today)) = true →
        categorize_by_month today (some s) = "Last Month") ∧
      ((currentMonthStart today).ble d = false →
        ((lastMonthStart today).ble d && d.ble (lastMonthEnd today)) = false →
        ((lastToLastMonthStart today).ble d && d.ble (lastToLastMonthEnd today)) = true →
        categorize_by_month today (some s) = "Last to Last Month") ∧
      ((currentMonthStart today).ble d = false →
        ((lastMonthStart today).ble d && d.ble (lastMonthEnd today)) = false →
        ((lastToLastMonthStart today).ble d && d.ble (lastToLastMonthEnd today)) = false →
        categorize_by_month today (some s) = monthFallbackOfDays (dateDiff today d))) ∧
    (∀ n : Int, n < 0 → monthFallbackOfDays n = "Current Month") := by
  refine ⟨rfl, ?_, ?_, ?_⟩
  · intro s h
    by_cases hg : s = "-" ∨ stripChars s.data = []
    · simp [categorize_by_month, hg]
    · simp [categorize_by_month, hg, h]
  · intro s d h
    have hg := parse_date_guard h
    refine ⟨?_, ?_, ?_, ?_⟩
    · intro h1
      simp [categorize_by_month, hg, h, h1]
    · intro h1 h2
      simp [categorize_by_month, hg, h, h1, h2]
    · intro h1 h2 h3
      simp [categorize_by_month, hg, h, h1, h2, h3]
    · intro h1 h2 h3
      simp [categorize_by_month, hg, h, h1, h2, h3]
  · intro n hn
    simp [monthFallbackOfDays, hn]

/-- C5 witness: with today = 2024-05-15 a purchase on 2024-05-02 is at or
after the current month start and labels `"Current Month"`. -/
theorem categorize_by_month_spec_witness :
    parse_date (some "02/05/2024") = some ⟨2024, 5, 2⟩ ∧
    categorize_by_month ⟨2024, 5, 15⟩ (some "02/05/2024") = "Current Month" :=
  ⟨by decide,
    ((categorize_by_month_spec ⟨2024, 5, 15⟩).2.2.1 "02/05/2024" ⟨2024, 5, 2⟩
      (by decide)).1 (by decide)⟩

/-- C6: the date parser returns `none` for null, `"-"` and blank input;
otherwise it parses the stripped first 10 characters trying, in this fixed
priority order, day/month/year (slash), day-month-year (hyphen),
year-month-day (ISO), month/day/year (slash), day.month.year (dot), the
first success winning; the ambiguous `"05/06/2024"` parses day-first. -/
theorem parse_date_spec :
    parse_date none = none ∧
    parse_date (some "-") = none ∧
    (∀ s : String, stripChars s.data = [] → parse_date (some s) = none) ∧
    (∀ s : String, s ≠ "-" → stripChars s.data ≠ [] →
      (∀ d : Date, strptimeDMY '/' (stripChars (charTake 10 s.data)) = some d →
        parse_date (some s) = some d) ∧
      (strptimeDMY '/' (stripChars (charTake 10 s.data)) = none →
        ∀ d : Date, strptimeDMY '-' (stripChars (charTake 10 s.data)) = some d →
        parse_date (some s) = some d) ∧
      (strptimeDMY '/' (stripChars (charTake 10 s.data)) = none →
        strptimeDMY '-' (stripChars (charTake 10 s.data)) = none →
        ∀ d : Date, strptimeYMD '-' (stripChars (charTake 10 s.data)) = some d →
        parse_date (some s) = some d) ∧
      (strptimeDMY '/' (stripChars (charTake 10 s.data)) = none →
        strptimeDMY '-' (stripChars (charTake 10 s.data)) = none →
        strptimeYMD '-' (stripChars (charTake 10 s.data)) = none →
        ∀ d : Date, strptimeMDY '/' (stripChars (charTake 10 s.data)) = some d →
        parse_date (some s) = some d) ∧
      (strptimeDMY '/' (stripChars (charTake 10 s.data)) = none →
        strptimeDMY '-' (stripChars (charTake 10 s.data)) = none →
        strptimeYMD '-' (stripChars (charTake 10 s.data)) = none →
        strptimeMDY '/' (stripChars (charTake 10 s.data)) = none →
        parse_date (some s) = strptimeDMY '.' (stripChars (charTake 10 s.data)))) ∧
    parse_date (some "05/06/2024") = some ⟨2024, 6, 5⟩ := by
  refine ⟨rfl, rfl, ?_, ?_, by decide⟩
  · intro s h
    simp [parse_date, h]
  · intro s h1 h2
    have hg : ¬(s = "-" ∨ stripChars s.data = []) := by
      simp [h1, h2]
    have hp : parse_date (some s) = tryFormats (stripChars (charTake 10 s.data)) := by
      simp [parse_date, hg]
    refine ⟨?_, ?_, ?_, ?_, ?_⟩
    · intro d hd
      rw [hp]
      simp [tryFormats, hd]
    · intro e1 d hd
      rw [hp]
      simp [tryFormats, e1, hd]
    · intro e1 e2 d hd
      rw [hp]
      simp [tryFormats, e1, e2, hd]
    · intro e1 e2 e3 d hd
      rw [hp]
      simp [tryFormats, e1, e2, e3, hd]
    · intro e1 e2 e3 e4
      rw [hp]
      simp [tryFormats, e1, e2, e3, e4]

/-- C6 witness: `"01-02-2023"` fails the slash format and is taken by the
second (hyphen day-month-year) format. -/
theorem parse_date_spec_witness :
    ("01-02-2023" : String) ≠ "-" ∧ stripChars "01-02-2023".data ≠ [] ∧
    parse_date (some "01-02-2023") = some ⟨2023, 2, 1⟩ :=
  ⟨by decide, by decide,
    (parse_date_spec.2.2.2.1 "01-02-2023" (by decide) (by decide)).2.1 (by decide)
      ⟨2023, 2, 1⟩ (by decide)⟩

/-- C3 (amended): the windowed dead-stock mask selects exactly the records
with coerced stock quantity `> 0`, purchase date inside
`[date_range_start, date_range_end]`, and issue date missing or strictly
before the purchase date; there is no `not_sold_cutoff` disjunct. -/
theorem get_dead_stock_mask_characterization (r : MaskRow) (ws we : Date) :
    get_dead_stock_mask r ws we = true ↔
      (0 < r.stock_qty.getD 0 ∧
        ∃ p : Date, r.purchase = some p ∧ ws.ble p = true ∧ p.ble we = true ∧
          (r.issue = none ∨ ∃ i : Date, r.issue = some i ∧ i.blt p = true)) := by
  rcases r with ⟨sq, pu, isd⟩
  cases pu <;> cases isd <;> simp [get_dead_stock_mask] <;> tauto

/-- C3 witness: a record with positive stock, purchase inside the window and
no recorded issue is selected. -/
theorem get_dead_stock_mask_characterization_witness :
    get_dead_stock_mask ⟨some 2, some ⟨2023, 6, 15⟩, none⟩ ⟨2023, 6, 1⟩ ⟨2023, 6, 30⟩ =
      true :=
  (get_dead_stock_mask_characterization ⟨some 2, some ⟨2023, 6, 15⟩, none⟩
      ⟨2023, 6, 1⟩ ⟨2023, 6, 30⟩).mpr
    ⟨by decide, ⟨2023, 6, 15⟩, rfl, by decide, by decide, Or.inl rfl⟩

/-- C3 counterexample: a record whose issue date is after the claimed
`not_sold_cutoff` (and after its purchase) satisfies the spec's
`dead_stock_in_range` predicate, with cutoff = the selected range end, but
is rejected by the code's mask, which has no cutoff clause. -/
theorem get_dead_stock_mask_no_cutoff :
    spec_dead_stock_in_range ⟨some 1, some ⟨2023, 6, 15⟩, some ⟨2024, 7, 10⟩⟩
      ⟨2023, 6, 1⟩ ⟨2023, 6, 30⟩ ⟨2024, 6, 30⟩ = true ∧
    get_dead_stock_mask ⟨some 1, some ⟨2023, 6, 15⟩, some ⟨2024, 7, 10⟩⟩
      ⟨2023, 6, 1⟩ ⟨2023, 6, 30⟩ = false :=
  ⟨by decide, by decide⟩

/-- C10: every record selected by the windowed dead-stock mask has coerced
stock quantity strictly greater than 0, for every window. -/
theorem get_dead_stock_mask_stock_pos (r : MaskRow) (ws we : Date)
    (h : get_dead_stock_mask r ws we = true) : 0 < r.stock_qty.getD 0 := by
  rcases r with ⟨sq, pu, isd⟩
  cases pu <;> cases isd <;> simp [get_dead_stock_mask] at h <;> tauto

/-- C10 witness: a selected record indeed has positive coerced stock. -/
theorem get_dead_stock_mask_stock_pos_witness :
    get_dead_stock_mask ⟨some 3, some ⟨2023, 6, 20⟩, none⟩ ⟨2023, 6, 1⟩ ⟨2023, 6, 30⟩ =
      true ∧
    (0 : ℚ) < (MaskRow.mk (some 3) (some ⟨2023, 6, 20⟩) none).stock_qty.getD 0 :=
  ⟨by decide,
    get_dead_stock_mask_stock_pos ⟨some 3, some ⟨2023, 6, 20⟩, none⟩
      ⟨2023, 6, 1⟩ ⟨2023, 6, 30⟩ (by decide)⟩

/-- C7: the last-month liquidation mask selects exactly the records with
positive coerced stock, a purchase date strictly before last month's start
one year ago, and an issue date within the current year's
`[last_month_start, last_month_end]` window. -/
theorem lml_mask_characterization (today : Date) (r : MaskRow) :
    lml_mask today r = true ↔
      (0 < r.stock_qty.getD 0 ∧
        ∃ w : Date, replaceYearSub1 (lastMonthStart today) = some w ∧
          (∃ p : Date, r.purchase = some p ∧ p.blt w = true) ∧
          (∃ i : Date, r.issue = some i ∧ (lastMonthStart today).ble i = true ∧
            i.ble (lastMonthEnd today) = true)) := by
  rcases r with ⟨sq, pu, isd⟩
  cases hw : replaceYearSub1 (lastMonthStart today) with
  | none => cases pu <;> cases isd <;> simp [lml_mask, hw]
  | some w => cases pu <;> cases isd <;> simp [lml_mask, hw] <;> tauto

/-- C7 witness: scenario E — stock 1, purchase two years before today's
month, issue inside last calendar month — is selected. -/
theorem lml_mask_characterization_witness :
    lml_mask ⟨2024, 5, 15⟩ ⟨some 1, some ⟨2022, 5, 10⟩, some ⟨2024, 4, 20⟩⟩ = true :=
  (lml_mask_characterization ⟨2024, 5, 15⟩
      ⟨some 1, some ⟨2022, 5, 10⟩, some ⟨2024, 4, 20⟩⟩).mpr
    ⟨by decide, ⟨2023, 4, 1⟩, by decide, ⟨⟨2022, 5, 10⟩, rfl, by decide⟩,
      ⟨⟨2024, 4, 20⟩, rfl, by decide, by decide⟩⟩

end SpareAgeing
